import Mathlib

/-!
Shallow embedding of the imageconvert conversion/preview pipeline.

Sources embedded here:
- src/lib/imageUtils.ts : qualityMap, getAutoQuality, convertImage, generatePreview
- src/unnamed/part_000  : QualitySettings
- src/unnamed/part_001  : the updateLivePreview effect and handleConvert of the page

File sizes are natural numbers of bytes.  The source divides by 1024*1024 in
IEEE double arithmetic; for byte counts below 2^53 that division and the
comparisons against 10, 5, 2, 1 and 0.5 are exact, so the embedding uses ℚ.
-/

namespace ImageConvert

/-- QualitySettings from src/unnamed/part_000: quality per size tier. -/
structure QualitySettings where
  tiny : ℕ
  small : ℕ
  medium : ℕ
  large : ℕ
  xlarge : ℕ
  huge : ℕ
deriving DecidableEq

/-- QualityMap from src/lib/imageUtils.ts: one table per quality-capable format. -/
structure QualityMap where
  jpeg : QualitySettings
  webp : QualitySettings
deriving DecidableEq

/-- The qualityMap constant of src/lib/imageUtils.ts. -/
def qualityMap : QualityMap :=
  { jpeg := { tiny := 90, small := 85, medium := 80, large := 70, xlarge := 60, huge := 50 }
    webp := { tiny := 85, small := 80, medium := 75, large := 65, xlarge := 55, huge := 45 } }

/-- getAutoQuality from src/lib/imageUtils.ts.  The size in MB is the byte
count divided by 1024*1024; any format other than webp selects the jpeg
table; the tier tests are strict comparisons, from huge down to tiny. -/
def getAutoQuality (sizeBytes : ℕ) (format : String) : ℕ :=
  let sizeInMB : ℚ := (sizeBytes : ℚ) / (1024 * 1024)
  let qualities := if format = "webp" then qualityMap.webp else qualityMap.jpeg
  if sizeInMB > 10 then qualities.huge
  else if sizeInMB > 5 then qualities.xlarge
  else if sizeInMB > 2 then qualities.large
  else if sizeInMB > 1 then qualities.medium
  else if sizeInMB > 0.5 then qualities.small
  else qualities.tiny

lemma sizeInMB_gt_iff (s N : ℕ) (c : ℚ) (hc : c * (1024 * 1024) = (N : ℚ)) :
    ((s : ℚ) / (1024 * 1024) > c) ↔ s > N := by
  rw [gt_iff_lt, lt_div_iff₀ (by norm_num : (0 : ℚ) < 1024 * 1024), hc, Nat.cast_lt]

/-- The estimator with the float division eliminated: the same tier chain on
whole byte counts.  10MB = 10485760, 5MB = 5242880, 2MB = 2097152,
1MB = 1048576, 0.5MB = 524288 bytes. -/
lemma getAutoQuality_eq (sizeBytes : ℕ) (format : String) :
    getAutoQuality sizeBytes format =
      (let qualities := if format = "webp" then qualityMap.webp else qualityMap.jpeg
       if sizeBytes > 10485760 then qualities.huge
       else if sizeBytes > 5242880 then qualities.xlarge
       else if sizeBytes > 2097152 then qualities.large
       else if sizeBytes > 1048576 then qualities.medium
       else if sizeBytes > 524288 then qualities.small
       else qualities.tiny) := by
  have h10 := sizeInMB_gt_iff sizeBytes 10485760 10 (by norm_num)
  have h5 := sizeInMB_gt_iff sizeBytes 5242880 5 (by norm_num)
  have h2 := sizeInMB_gt_iff sizeBytes 2097152 2 (by norm_num)
  have h1 := sizeInMB_gt_iff sizeBytes 1048576 1 (by norm_num)
  have hh := sizeInMB_gt_iff sizeBytes 524288 0.5 (by norm_num)
  simp only [getAutoQuality, h10, h5, h2, h1, hh]

example : getAutoQuality 1048576 "jpeg" = 85 := by
  rw [getAutoQuality_eq]; decide

example : getAutoQuality 3145728 "webp" = 65 := by
  rw [getAutoQuality_eq]; decide

/-! The codec adapter of src/lib/imageUtils.ts. -/

/-- A user-supplied file: declared name, byte length, and an abstract content
identifier distinguishing files with equal names. -/
structure FileRef where
  name : String
  size : ℕ
  content : ℕ
deriving DecidableEq

/-- Abstract browser behaviour as seen by convertImage.  decodeDims gives the
intrinsic pixel dimensions when the bytes decode as an image (img.onload
fires), and none when they do not (only img.onload is wired in the source, so
a failed load leaves the await pending).  encodeBlob is canvas.toBlob on the
drawn image for a target format and quality: some blob id on success, none
when the renderer yields null. -/
structure Browser where
  decodeDims : FileRef → Option (ℕ × ℕ)
  encodeBlob : FileRef → String → ℕ → Option ℕ

/-- How one convertImage promise ends: never settles, rejects, or resolves. -/
inductive ConvOutcome where
  | hangs
  | errored (msg : String)
  | ok (blob : ℕ)
deriving DecidableEq

/-- One run of convertImage: its outcome plus what happened to the object URL
it created for loading the source. -/
structure ConvertRun where
  outcome : ConvOutcome
  objectUrlCreated : Bool
  objectUrlRevoked : Bool
deriving DecidableEq

/-- convertImage from src/lib/imageUtils.ts.  It creates an object URL and
assigns it to img.src; it then awaits a promise resolved only by img.onload,
so when the bytes do not decode the function never settles and the finally
clause that revokes the URL never runs.  When the image loads, the canvas is
drawn and serialized with canvas.toBlob at quality/100: a null blob rejects
with the message of the source, a blob resolves; either way the finally
clause revokes the object URL before the promise settles. -/
def convertImage (env : Browser) (file : FileRef) (format : String) (quality : ℕ) : ConvertRun :=
  match env.decodeDims file with
  | none =>
      { outcome := .hangs, objectUrlCreated := true, objectUrlRevoked := false }
  | some _ =>
      match env.encodeBlob file format quality with
      | none =>
          { outcome := .errored "Failed to convert image",
            objectUrlCreated := true, objectUrlRevoked := true }
      | some b =>
          { outcome := .ok b, objectUrlCreated := true, objectUrlRevoked := true }

/-- A conversion request as issued by the page: the file plus the target
format and quality. -/
structure Request where
  file : FileRef
  format : String
  quality : ℕ
deriving DecidableEq

/-- generatePreview from src/lib/imageUtils.ts runs convertImage and wraps
the blob in a fresh object URL.  This step threads the fresh-URL counter and
a count of codec invocations: every call runs convertImage (there is no
cache in src/lib/imageUtils.ts), so the counter grows by one per call.
Returns the produced preview URL (none when the conversion hangs or errors),
the next fresh URL and the updated codec count. -/
def generatePreviewStep (env : Browser) (r : Request) (nextUrl codecCalls : ℕ) :
    Option ℕ × ℕ × ℕ :=
  match (convertImage env r.file r.format r.quality).outcome with
  | .ok _ => (some nextUrl, nextUrl + 1, codecCalls + 1)
  | _ => (none, nextUrl, codecCalls + 1)

/-- A sequence of generatePreview calls, threading fresh URLs and the codec
invocation count. -/
def runPreviews (env : Browser) : List Request → ℕ → ℕ → List (Option ℕ) × ℕ × ℕ
  | [], nextUrl, codecCalls => ([], nextUrl, codecCalls)
  | r :: rs, nextUrl, codecCalls =>
      let s := generatePreviewStep env r nextUrl codecCalls
      let t := runPreviews env rs s.2.1 s.2.2
      (s.1 :: t.1, t.2)

/-- A browser in which every file decodes and every encode succeeds. -/
def goodBrowser : Browser :=
  { decodeDims := fun _ => some (640, 480)
    encodeBlob := fun file format quality => some (file.content + quality + format.length) }

/-- A file whose bytes are not an image, together with a browser that fails
to decode it: img.onload never fires. -/
def textFile : FileRef := { name := "notes.txt", size := 4096, content := 7 }

/-- The browser behaviour on an undecodable input: decode yields no image. -/
def badBrowser : Browser :=
  { decodeDims := fun _ => none
    encodeBlob := fun _ _ _ => none }

example : (convertImage badBrowser textFile "jpeg" 80).outcome = ConvOutcome.hangs := by decide

example : runPreviews goodBrowser [⟨textFile, "jpeg", 80⟩, ⟨textFile, "jpeg", 80⟩] 0 0 =
    ([some 0, some 1], 2, 2) := by decide

/-! The updateLivePreview effect of src/unnamed/part_001 (lines 45 to 70).

The effect body runs on every change of its dependencies.  When a file is
selected and the format supports quality, the body first revokes the current
livePreviewUrl, then awaits generatePreview; the completion handler calls
setLivePreviewUrl on the new URL with no staleness or mount check, and the
catch clause logs the error with console.error.  The cleanup returned by the
effect revokes the livePreviewUrl captured by the closure of that run.

The machine below replays those four code paths as events over the page
state.  Preview URLs are numbered by the request that produced them, since
URL.createObjectURL returns a fresh URL per call. -/

/-- The page state touched by the effect: the livePreviewUrl React state, the
sequence of revokeObjectURL calls made so far, the number of errors logged by
the catch clause, and how many preview conversions have been started. -/
structure EffectState where
  livePreviewUrl : Option ℕ
  revoked : List ℕ
  errorsLogged : ℕ
  issued : ℕ
deriving DecidableEq

/-- The fresh object URL produced by the conversion started as request i. -/
def urlOfRequest (i : ℕ) : ℕ := i

/-- The code paths of the effect.  runBody active previewUrl is one run of
the body, with active true when a file is selected and the format supports
quality, and previewUrl the original-file URL used in the inactive branch.
resolve i is the completion handler of the conversion started as request i;
reject i is its catch clause.  cleanup captured is the effect cleanup, with
captured the livePreviewUrl seen by the closure of that run. -/
inductive PreviewEv where
  | runBody (active : Bool) (previewUrl : Option ℕ)
  | resolve (i : ℕ)
  | reject (i : ℕ)
  | cleanup (captured : Option ℕ)
deriving DecidableEq

/-- One event of the effect applied to the page state, line by line from
src/unnamed/part_001: the inactive body sets livePreviewUrl to previewUrl;
the active body revokes the current livePreviewUrl if present and starts a
conversion; the completion handler sets livePreviewUrl unconditionally; the
catch clause only logs; the cleanup revokes the captured URL if present. -/
def previewStep (s : EffectState) (e : PreviewEv) : EffectState :=
  match e with
  | .runBody false previewUrl => { s with livePreviewUrl := previewUrl }
  | .runBody true _ =>
      { s with revoked := s.revoked ++ s.livePreviewUrl.toList, issued := s.issued + 1 }
  | .resolve i => { s with livePreviewUrl := some (urlOfRequest i) }
  | .reject _ => { s with errorsLogged := s.errorsLogged + 1 }
  | .cleanup captured => { s with revoked := s.revoked ++ captured.toList }

/-- A whole schedule of effect events run in order. -/
def runEffect (s : EffectState) (evs : List PreviewEv) : EffectState :=
  evs.foldl previewStep s

example :
    (runEffect ⟨none, [], 0, 0⟩
      [.runBody true none, .cleanup none, .runBody true none, .resolve 2, .resolve 1]).livePreviewUrl
      = some 1 := by decide

/-! handleConvert of src/unnamed/part_001 (lines 103 to 125). -/

/-- The page state touched by handleConvert: the selected file and settings,
the preview URLs, the error React state shown in the UI, the converting
flag, the number of console.error calls, and the blobs actually downloaded
by the anchor click. -/
structure PageState where
  selectedFile : Option FileRef
  format : String
  quality : ℕ
  previewUrl : Option ℕ
  livePreviewUrl : Option ℕ
  errorMsg : Option String
  converting : Bool
  consoleErrors : ℕ
  downloads : List ℕ
deriving DecidableEq

/-- handleConvert from src/unnamed/part_001.  With no file it returns at
once.  Otherwise it sets converting, runs convertImage at the current
settings, and on success creates an object URL for the blob, clicks an
anchor that downloads it, and revokes the URL; the catch clause only calls
console.error (setError is never called on this path), and the finally
clause clears converting.  When convertImage never settles, neither the
catch nor the finally runs, so converting stays set and nothing else
changes. -/
def handleConvert (env : Browser) (s : PageState) : PageState :=
  match s.selectedFile with
  | none => s
  | some file =>
      match (convertImage env file s.format s.quality).outcome with
      | .ok b => { s with downloads := s.downloads ++ [b], converting := false }
      | .errored _ => { s with consoleErrors := s.consoleErrors + 1, converting := false }
      | .hangs => { s with converting := true }

/-! Claim-side refinement definitions for the quality estimator. -/

/-- The six size tiers of the spec. -/
inductive SizeTier where
  | tiny
  | small
  | medium
  | large
  | xlarge
  | huge
deriving DecidableEq

/-- Classifier following the words of the claim: sizeMB = sizeBytes / 2^20,
strictly exclusive upper boundaries, first matching tier from huge down
(sizeMB > 0.5 is stated on whole bytes as 2 * sizeBytes > 2^20). -/
def specTier (sizeBytes : ℕ) : SizeTier :=
  if sizeBytes > 10 * 2 ^ 20 then .huge
  else if sizeBytes > 5 * 2 ^ 20 then .xlarge
  else if sizeBytes > 2 * 2 ^ 20 then .large
  else if sizeBytes > 1 * 2 ^ 20 then .medium
  else if 2 * sizeBytes > 2 ^ 20 then .small
  else .tiny

/-- Table lookup for a tier in a per-format quality table. -/
def tierValue (t : SizeTier) (q : QualitySettings) : ℕ :=
  match t with
  | .tiny => q.tiny
  | .small => q.small
  | .medium => q.medium
  | .large => q.large
  | .xlarge => q.xlarge
  | .huge => q.huge

/-! Claim theorems. -/

/-- Claim C1: for every byte count, getAutoQuality on jpeg and on webp equals
the table value of the tier obtained by classifying sizeBytes / 2^20 with
strictly exclusive upper boundaries; in particular a file of exactly 1.0MB is
small (jpeg 85, webp 80) and a 3MB file is large (jpeg 70, webp 65). -/
theorem c1_quality_estimator_tiers :
    (∀ sizeBytes : ℕ,
      getAutoQuality sizeBytes "jpeg" = tierValue (specTier sizeBytes) qualityMap.jpeg ∧
      getAutoQuality sizeBytes "webp" = tierValue (specTier sizeBytes) qualityMap.webp) ∧
    specTier 1048576 = SizeTier.small ∧
    getAutoQuality 1048576 "jpeg" = 85 ∧ getAutoQuality 1048576 "webp" = 80 ∧
    getAutoQuality 3145728 "jpeg" = 70 ∧ getAutoQuality 3145728 "webp" = 65 := by
  have hj : ∀ s : ℕ,
      getAutoQuality s "jpeg" = tierValue (specTier s) qualityMap.jpeg := by
    intro s
    simp only [getAutoQuality_eq, String.reduceEq, if_false, specTier]
    norm_num
    split_ifs <;> first | rfl | (exfalso; omega)
  have hw : ∀ s : ℕ,
      getAutoQuality s "webp" = tierValue (specTier s) qualityMap.webp := by
    intro s
    simp only [getAutoQuality_eq, String.reduceEq, if_true, specTier]
    norm_num
    split_ifs <;> first | rfl | (exfalso; omega)
  refine ⟨fun s => ⟨hj s, hw s⟩, by decide, ?_, ?_, ?_, ?_⟩ <;>
    (rw [getAutoQuality_eq]; decide)

/-- Claim C2 counterexample: for a format that is neither jpeg nor webp the
estimator does not return 100: an empty png request yields 90, the jpeg tiny
value. -/
theorem c2_counterexample :
    getAutoQuality 0 "png" = 90 ∧ getAutoQuality 0 "png" ≠ 100 := by
  constructor <;> rw [getAutoQuality_eq] <;> decide

/-- Claim C2 amended: for every size, any format other than webp (png and
avif included) selects the jpeg table, so the estimator agrees with its jpeg
value and is never the fixed 100 beyond what the jpeg table contains. -/
theorem c2_non_webp_uses_jpeg_table (sizeBytes : ℕ) (format : String)
    (h : format ≠ "webp") :
    getAutoQuality sizeBytes format = getAutoQuality sizeBytes "jpeg" := by
  simp only [getAutoQuality, if_neg h,
    if_neg (show ¬("jpeg" = "webp") by decide)]

/-- Claim C2 witness: the amended statement at a concrete png request. -/
theorem c2_witness : getAutoQuality 0 "png" = getAutoQuality 0 "jpeg" :=
  c2_non_webp_uses_jpeg_table 0 "png" (by decide)

/-- Claim C10: for every format, the estimator is non-increasing in the byte
count, and its value lies in [45, 90], hence in the valid range [1, 100]. -/
theorem c10_monotone_bounded (format : String) (a b : ℕ) (hab : a ≤ b) :
    getAutoQuality b format ≤ getAutoQuality a format ∧
    45 ≤ getAutoQuality a format ∧ getAutoQuality a format ≤ 90 ∧
    1 ≤ getAutoQuality a format ∧ getAutoQuality a format ≤ 100 := by
  rw [getAutoQuality_eq, getAutoQuality_eq]
  by_cases h : format = "webp" <;>
    simp only [h, if_true, if_false, qualityMap] <;>
    split_ifs <;> omega

/-- Claim C10 witness: monotonicity and the bounds at concrete sizes. -/
theorem c10_witness :
    getAutoQuality 2097153 "jpeg" ≤ getAutoQuality 1 "jpeg" ∧
    45 ≤ getAutoQuality 1 "jpeg" ∧ getAutoQuality 1 "jpeg" ≤ 90 ∧
    1 ≤ getAutoQuality 1 "jpeg" ∧ getAutoQuality 1 "jpeg" ≤ 100 :=
  c10_monotone_bounded "jpeg" 1 2097153 (by decide)

/-- Claim C3 counterexample: two generatePreview calls with the identical
request invoke the codec twice, not once, and return two distinct fresh
preview URLs: src/lib/imageUtils.ts holds no cache. -/
theorem c3_counterexample :
    (runPreviews goodBrowser [⟨textFile, "jpeg", 80⟩, ⟨textFile, "jpeg", 80⟩] 0 0).2.2 = 2 ∧
    (runPreviews goodBrowser [⟨textFile, "jpeg", 80⟩, ⟨textFile, "jpeg", 80⟩] 0 0).1
      = [some 0, some 1] ∧
    (some 0 : Option ℕ) ≠ some 1 := by
  decide

/-- Claim C3 amended: for every browser behaviour and every request, two
calls of generatePreview with the identical request run convertImage twice:
each call recomputes, no result is reused. -/
theorem c3_every_call_invokes_codec (env : Browser) (r : Request) (nextUrl codecCalls : ℕ) :
    (runPreviews env [r, r] nextUrl codecCalls).2.2 = codecCalls + 2 := by
  rcases h : (convertImage env r.file r.format r.quality).outcome with _ | msg | b <;>
    simp [runPreviews, generatePreviewStep, h]

/-- Claim C4 counterexample: two preview requests are issued; the newer one
(request 2) completes first, then the older one (request 1) completes and
overwrites it, so the published preview is the result of request 1 even
though request 2 was issued last. -/
theorem c4_counterexample :
    (runEffect ⟨none, [], 0, 0⟩
      [.runBody true none, .cleanup none, .runBody true none,
       .resolve 2, .resolve 1]).issued = 2 ∧
    (runEffect ⟨none, [], 0, 0⟩
      [.runBody true none, .cleanup none, .runBody true none,
       .resolve 2, .resolve 1]).livePreviewUrl = some (urlOfRequest 1) ∧
    urlOfRequest 1 ≠ urlOfRequest 2 := by
  decide

/-- Claim C4 amended: from any state and after any events, the published
preview is the result of the most recently completed conversion: whichever
request resolves last sets livePreviewUrl, with no sequence-number or
staleness guard, so an older request that resolves after a newer one
overwrites the newer preview. -/
theorem c4_last_completed_wins (s : EffectState) (evs : List PreviewEv) (i : ℕ) :
    (runEffect s (evs ++ [PreviewEv.resolve i])).livePreviewUrl = some (urlOfRequest i) := by
  simp [runEffect, List.foldl_append, previewStep]

/-- Claim C5: on an undecodable input, convertImage creates the object URL
but never revokes it: the only resolver wired is img.onload, so the promise
never settles and the finally clause never runs — the transient resource is
leaked, not released, on this failure path. -/
theorem c5_decode_failure_leaks_url :
    (convertImage badBrowser textFile "jpeg" 80).objectUrlCreated = true ∧
    (convertImage badBrowser textFile "jpeg" 80).objectUrlRevoked = false ∧
    (convertImage badBrowser textFile "jpeg" 80).outcome = ConvOutcome.hangs := by
  decide

/-- Claim C6: on an input whose bytes do not decode as an image, convertImage
never completes (the load promise has no rejection path), rather than failing
with a rejected promise as the claim states. -/
theorem c6_decode_failure_hangs :
    (convertImage badBrowser textFile "jpeg" 80).outcome = ConvOutcome.hangs ∧
    ∀ msg, (convertImage badBrowser textFile "jpeg" 80).outcome ≠ ConvOutcome.errored msg := by
  refine ⟨by decide, fun msg h => ?_⟩
  rw [show (convertImage badBrowser textFile "jpeg" 80).outcome = ConvOutcome.hangs
    from by decide] at h
  exact ConvOutcome.noConfusion h

/-- Claim C7 counterexample: a preview regeneration fails while URL 7 is
displayed: the error is logged and livePreviewUrl still holds URL 7, but the
effect body already revoked URL 7 before converting, so the displayed handle
is no longer valid. -/
theorem c7_counterexample :
    (runEffect ⟨some 7, [], 0, 0⟩ [.runBody true (some 3), .reject 1]).livePreviewUrl
      = some 7 ∧
    (runEffect ⟨some 7, [], 0, 0⟩ [.runBody true (some 3), .reject 1]).errorsLogged = 1 ∧
    (runEffect ⟨some 7, [], 0, 0⟩ [.runBody true (some 3), .reject 1]).revoked = [7] := by
  decide

/-- Claim C7 amended: when a preview regeneration fails, the error is
swallowed and logged without crashing the session, and the previously
displayed preview URL remains the published one — but its handle has already
been revoked by the effect body before the conversion was attempted, so it
is no longer valid. -/
theorem c7_error_logged_prior_handle_revoked (s : EffectState) (u : ℕ) (p : Option ℕ) (i : ℕ)
    (h : s.livePreviewUrl = some u) :
    (runEffect s [PreviewEv.runBody true p, PreviewEv.reject i]).livePreviewUrl = some u ∧
    (runEffect s [PreviewEv.runBody true p, PreviewEv.reject i]).errorsLogged
      = s.errorsLogged + 1 ∧
    u ∈ (runEffect s [PreviewEv.runBody true p, PreviewEv.reject i]).revoked := by
  simp [runEffect, previewStep, h]

/-- Claim C7 witness: the amended statement at the concrete failing run. -/
theorem c7_witness :
    (runEffect ⟨some 7, [], 0, 0⟩
      [PreviewEv.runBody true none, PreviewEv.reject 1]).livePreviewUrl = some 7 ∧
    (runEffect ⟨some 7, [], 0, 0⟩
      [PreviewEv.runBody true none, PreviewEv.reject 1]).errorsLogged = 0 + 1 ∧
    7 ∈ (runEffect ⟨some 7, [], 0, 0⟩
      [PreviewEv.runBody true none, PreviewEv.reject 1]).revoked :=
  c7_error_logged_prior_handle_revoked ⟨some 7, [], 0, 0⟩ 7 none 1 rfl

/-- A browser on which every file decodes but encoding always yields a null
blob, so canvas.toBlob rejects. -/
def encodeFailBrowser : Browser :=
  { decodeDims := fun _ => some (640, 480)
    encodeBlob := fun _ _ _ => none }

/-- Claim C8 counterexample: a final-download conversion fails; the session
state (file, format, quality, previews) is unchanged and no file is emitted,
but the error is only written to the console: the UI error state stays none,
so nothing is surfaced to the user. -/
theorem c8_counterexample :
    handleConvert encodeFailBrowser
        ⟨some textFile, "webp", 80, some 1, some 2, none, false, 0, []⟩ =
      ⟨some textFile, "webp", 80, some 1, some 2, none, false, 1, []⟩ := by
  decide

/-- Claim C8 amended: whenever the selected file decodes but its encoding
fails, handleConvert leaves every session field unchanged — including the UI
error state, so the failure is not surfaced to the user — emits no file, and
only increments the console error count and clears the converting flag. -/
theorem c8_failure_only_logged (env : Browser) (s : PageState) (file : FileRef) (d : ℕ × ℕ)
    (hf : s.selectedFile = some file)
    (hdec : env.decodeDims file = some d)
    (henc : env.encodeBlob file s.format s.quality = none) :
    handleConvert env s = { s with consoleErrors := s.consoleErrors + 1, converting := false } := by
  simp [handleConvert, hf, convertImage, hdec, henc]

/-- Claim C8 witness: the amended statement at the concrete failing run. -/
theorem c8_witness :
    handleConvert encodeFailBrowser
        ⟨some textFile, "webp", 80, some 1, some 2, none, true, 5, []⟩ =
      ⟨some textFile, "webp", 80, some 1, some 2, none, false, 5 + 1, []⟩ :=
  c8_failure_only_logged encodeFailBrowser
    ⟨some textFile, "webp", 80, some 1, some 2, none, true, 5, []⟩
    textFile (640, 480) rfl rfl rfl

/-- Claim C9 counterexample: with URL 7 displayed, the effect re-runs: the
body revokes URL 7 and starts a new conversion, and when the dependencies
change again React runs the cleanup of that same run, whose closure captured
URL 7, revoking it a second time — the handle is released twice. -/
theorem c9_counterexample :
    (runEffect ⟨some 7, [], 0, 0⟩
      [.runBody true none, .cleanup (some 7)]).revoked.count 7 = 2 := by
  decide

/-- Claim C9 amended: at most one preview URL is current at a time, but the
release-exactly-once discipline fails: for every state displaying a handle,
one effect run followed by its cleanup releases that handle twice — once in
the body before converting and once in the cleanup. -/
theorem c9_double_release (s : EffectState) (u : ℕ) (p : Option ℕ)
    (h : s.livePreviewUrl = some u) :
    (runEffect s [PreviewEv.runBody true p, PreviewEv.cleanup (some u)]).revoked.count u
      = s.revoked.count u + 2 := by
  simp [runEffect, previewStep, h, List.count_append]

/-- Claim C9 witness: the amended statement at the concrete double-revoking
run. -/
theorem c9_witness :
    (runEffect ⟨some 7, [], 0, 0⟩
      [PreviewEv.runBody true none, PreviewEv.cleanup (some 7)]).revoked.count 7
      = List.count 7 [] + 2 :=
  c9_double_release ⟨some 7, [], 0, 0⟩ 7 none rfl

end ImageConvert
